import Mathlib

/-!
Shallow embedding of the request/response pipeline of `proxy_server.py`,
the single-hop HTTP gateway that forwards chat-completion requests to a
LiteLLM backend. The handler `proxy_to_litellm` is modelled as a pure
function from the parsed request body, the optional Authorization header
and an abstract backend oracle to the HTTP reply it produces, paired with
the list of backend invocations it issued (used to express call-count
properties). Python exceptions raised inside the handler's try block are
modelled by the reply the surrounding except clauses turn them into.
-/

namespace ProxyServer

/-- JSON values as produced by `json.loads`; numbers are modelled as
rationals (the source only passes numeric fields through). -/
inductive Json where
  | null
  | bool (b : Bool)
  | num (q : Rat)
  | str (s : String)
  | arr (elems : List Json)
  | obj (fields : List (String × Json))


/-- Python truthiness of a JSON value: None, False, 0, the empty string,
the empty list and the empty dict are falsy, everything else is truthy.
This is what `if not body_data.get("messages")` tests. -/
def Json.truthy : Json → Bool
  | .null => false
  | .bool b => b
  | .num q => q != 0
  | .str s => s != ""
  | .arr elems => !elems.isEmpty
  | .obj fields => !fields.isEmpty

/-- Python `dict.get(key)`: the value bound to the key, or None (here:
`Option.none`) when absent. -/
def pyGet (fields : List (String × Json)) (key : String) : Option Json :=
  (fields.find? (fun p => p.1 == key)).map (fun p => p.2)

/-- Truthiness of a `dict.get` result: None is falsy, otherwise the
truthiness of the value. -/
def truthyOpt : Option Json → Bool
  | none => false
  | some j => j.truthy

/-- One non-overlapping leftmost-first replacement pass over a character
list, with a fuel bound (each step consumes at least one character of the
scanned list, so fuel `s.length + 1` is always enough for a non-empty
pattern). Models Python `str.replace` for a non-empty pattern. -/
def replaceAllAux (pat rep : List Char) : Nat → List Char → List Char
  | 0, s => s
  | _ + 1, [] => []
  | fuel + 1, c :: rest =>
    if pat.isPrefixOf (c :: rest) then
      rep ++ replaceAllAux pat rep fuel ((c :: rest).drop pat.length)
    else
      c :: replaceAllAux pat rep fuel rest

/-- Python `s.replace(pat, rep)` for a non-empty pattern: every
non-overlapping occurrence of `pat`, scanned left to right, is replaced by
`rep`. (The source only calls this with the pattern `"Bearer "`; the
empty-pattern case of Python is not needed and is modelled as the
identity.) -/
def pyReplace (s pat rep : String) : String :=
  if pat.isEmpty then s
  else String.mk (replaceAllAux pat.toList rep.toList (s.toList.length + 1) s.toList)

/-- The raw request body, abstracted by what `json.loads` does with it:
empty, non-empty but not valid JSON, or parsing to a JSON object (the
mapping case, the only shape the handler's `dict.get` calls are defined
on). -/
inductive Body where
  | empty
  | invalid
  | parsedObj (fields : List (String × Json))


/-- Lenient body parsing from the source:
`body_data = json.loads(body.decode()) if body else {}` wrapped in
`except json.JSONDecodeError: body_data = {}` — an empty body and an
unparsable body both yield the empty mapping. -/
def parseLeniently : Body → List (String × Json)
  | .empty => []
  | .invalid => []
  | .parsedObj fields => fields

/-- The value `litellm.acompletion` returns, abstracted by the shapes the
normalization code distinguishes: Python None; an object with a
`model_dump` method returning a dict or None; an object whose `model_dump`
raises an exception other than AttributeError, carrying `str(e)`; an
object without `model_dump` but with a `__dict__` attribute bag; and a
value with neither. -/
inductive BackendResponse where
  | null
  | structured (dump : Option (List (String × Json)))
  | dumpRaises (msg : String)
  | fieldBag (fields : List (String × Json))
  | shapeless


/-- Outcome of the awaited backend call: a returned value, an
`httpx.RequestError` carrying `str(e)`, or any other exception carrying
`str(e)`. -/
inductive BackendOutcome where
  | value (r : BackendResponse)
  | transportError (detail : String)
  | otherError (detail : String)


/-- The arguments the handler passes to `litellm.acompletion`. -/
structure NormalizedCall where
  model : Json
  messages : Json
  temperature : Json
  max_tokens : Json
  base_url : String
  api_key : String


/-- An HTTP reply: status code and JSON body. Error replies rendered from
`HTTPException` carry the detail under the key `"detail"`. -/
structure HttpReply where
  status : Nat
  body : List (String × Json)


def LITELLM_BASE_URL : String := "http://localhost:4000"

/-- Result of the response-conversion block (source lines 88 to 99):
either a mapping, or an exception that escapes the block because the
`except AttributeError` clause does not catch it. -/
inductive NormalizeResult where
  | ok (fields : List (String × Json))
  | raised (msg : String)


/-- The response-conversion block of the source:
try `response.model_dump()`, on AttributeError fall back to
`response.__dict__` when present and to the invalid-format error mapping
otherwise, then substitute the empty-response error mapping when the
resulting dict is None. A `model_dump` that raises anything other than
AttributeError escapes the block. (Python None has no `__dict__`, hence
the invalid-format mapping for `.null`; the handler never reaches this
block with None anyway.) -/
def normalizeResponse : BackendResponse → NormalizeResult
  | .null => .ok [("error", .str "Invalid response format from LiteLLM")]
  | .structured (some fields) => .ok fields
  | .structured none => .ok [("error", .str "Empty response from LiteLLM")]
  | .dumpRaises msg => .raised msg
  | .fieldBag fields => .ok fields
  | .shapeless => .ok [("error", .str "Invalid response format from LiteLLM")]

/-- The reply produced after the backend call returned `outcome` for the
issued call. An `httpx.RequestError` is caught by the dedicated clause and
answered with 502. The explicit None check raises
`HTTPException(500, "LiteLLM returned null response")` inside the try
block, so the trailing `except Exception` catches it and re-raises it as
`HTTPException(500, "Proxy error: " + str(e))` with
`str(e) = "500: LiteLLM returned null response"`. Any other exception
from the call, or an exception escaping the conversion block, takes the
same trailing clause. A successful conversion is answered with 200 and
the converted mapping. -/
def handleBackendOutcome : BackendOutcome → HttpReply
  | .transportError d =>
    { status := 502, body := [("detail", .str ("Error connecting to LiteLLM server: " ++ d))] }
  | .otherError d =>
    { status := 500, body := [("detail", .str ("Proxy error: " ++ d))] }
  | .value .null =>
    { status := 500, body := [("detail", .str "Proxy error: 500: LiteLLM returned null response")] }
  | .value r =>
    match normalizeResponse r with
    | .ok fields => { status := 200, body := fields }
    | .raised msg => { status := 500, body := [("detail", .str ("Proxy error: " ++ msg))] }

/-- The proxy handler (source lines 42 to 120), as a function of the
abstracted body, the optional Authorization header value, and the backend
oracle. Returns the HTTP reply together with the list of backend calls
issued.

The validation check `if not body_data.get("messages")` raises
`HTTPException(400, "Messages field is required")` inside the try block;
that exception is an `Exception`, so the trailing `except Exception`
catches it and re-raises `HTTPException(500, "Proxy error: " + str(e))`
with `str(e) = "400: Messages field is required"` — the reply the client
actually sees on validation failure is a 500. The backend call is only
issued when validation passes, with field defaults
`model = "claude-3-5-haiku-20241022"`, `temperature = 0.7`,
`max_tokens = 20`, and
`api_key = request.headers.get("Authorization", "").replace("Bearer ", "")`. -/
def proxy_to_litellm (body : Body) (authHeader : Option String)
    (backend : NormalizedCall → BackendOutcome) : HttpReply × List NormalizedCall :=
  let body_data := parseLeniently body
  if !truthyOpt (pyGet body_data "messages") then
    ({ status := 500,
       body := [("detail", .str "Proxy error: 400: Messages field is required")] }, [])
  else
    let call : NormalizedCall :=
      { model := (pyGet body_data "model").getD (.str "claude-3-5-haiku-20241022")
        messages := (pyGet body_data "messages").getD (.arr [])
        temperature := (pyGet body_data "temperature").getD (.num 0.7)
        max_tokens := (pyGet body_data "max_tokens").getD (.num 20)
        base_url := LITELLM_BASE_URL
        api_key := pyReplace (authHeader.getD "") "Bearer " "" }
    (handleBackendOutcome (backend call), [call])

/-- A backend oracle used to instantiate universally quantified theorems
at concrete inputs. -/
def stubBackend : NormalizedCall → BackendOutcome :=
  fun _ => .value .shapeless

/-- The reply the source intends on a missing `messages` field, and the
reply it actually produces after its own trailing `except Exception`
clause re-wraps the `HTTPException(400)`. -/
def validationFailureReply : HttpReply :=
  { status := 500,
    body := [("detail", Json.str "Proxy error: 400: Messages field is required")] }

/-- C1: claimed — a request whose body yields an absent or empty
`messages` field is answered with status 400 and message
"Messages field is required". The code instead answers status 500 with
detail "Proxy error: 400: Messages field is required": the
`HTTPException(400, ...)` raised at source line 67 sits inside the try
block, so the trailing `except Exception` at line 115 catches it and
re-raises it as a 500 whose detail wraps `str(e)`. This theorem evaluates
the handler at such inputs (the empty body, shown for every Authorization
header and every backend) and exhibits the 500 reply; no backend call is
issued. -/
theorem proxy_missing_messages_answers_500 (authHeader : Option String)
    (backend : NormalizedCall → BackendOutcome) :
    proxy_to_litellm Body.empty authHeader backend = (validationFailureReply, []) :=
  rfl

/-- C9: a non-empty body that fails to parse as JSON is handled exactly
like an empty body — lenient parsing substitutes the empty mapping in
both cases, so both take the validation-failure path (no backend call is
issued) rather than any parse-error path. -/
theorem proxy_invalid_body_same_as_empty (authHeader : Option String)
    (backend : NormalizedCall → BackendOutcome) :
    proxy_to_litellm Body.invalid authHeader backend =
        proxy_to_litellm Body.empty authHeader backend ∧
      proxy_to_litellm Body.invalid authHeader backend = (validationFailureReply, []) :=
  ⟨rfl, rfl⟩

/-- C4: when `NormalizedChatRequest` construction fails (the `messages`
lookup on the leniently parsed body is falsy), the backend is never
invoked: the handler issues no backend call and its reply does not depend
on the backend oracle at all. -/
theorem proxy_validation_failure_skips_backend (body : Body) (authHeader : Option String)
    (backend : NormalizedCall → BackendOutcome)
    (h : truthyOpt (pyGet (parseLeniently body) "messages") = false) :
    (proxy_to_litellm body authHeader backend).2 = [] ∧
      ∀ backend2, proxy_to_litellm body authHeader backend =
        proxy_to_litellm body authHeader backend2 := by
  refine ⟨?_, fun backend2 => ?_⟩ <;> simp [proxy_to_litellm, h]

/-- Witness for C4 at a concrete input: the empty body fails validation,
no backend call is issued, and the reply is backend-independent. -/
theorem proxy_validation_failure_skips_backend_witness :
    (proxy_to_litellm Body.empty none stubBackend).2 = [] ∧
      ∀ backend2, proxy_to_litellm Body.empty none stubBackend =
        proxy_to_litellm Body.empty none backend2 :=
  proxy_validation_failure_skips_backend Body.empty none stubBackend rfl

/-- C10: a `messages` key bound to any falsy value (None, False, 0, the
empty string — and also the empty list or mapping) is treated exactly
like an absent `messages` key: the truthiness test sends both to the
validation-failure path. -/
theorem proxy_falsy_messages_same_as_absent (v : Json) (hv : v.truthy = false)
    (authHeader : Option String) (backend : NormalizedCall → BackendOutcome) :
    proxy_to_litellm (Body.parsedObj [("messages", v)]) authHeader backend =
      proxy_to_litellm (Body.parsedObj []) authHeader backend := by
  simp [proxy_to_litellm, parseLeniently, pyGet, truthyOpt, hv, List.find?]

/-- Witness for C10 at a concrete input: a body binding `messages` to JSON
null is handled like a body without the key. -/
theorem proxy_falsy_messages_same_as_absent_witness :
    proxy_to_litellm (Body.parsedObj [("messages", Json.null)]) none stubBackend =
      proxy_to_litellm (Body.parsedObj []) none stubBackend :=
  proxy_falsy_messages_same_as_absent Json.null rfl none stubBackend

/-- C2 counterexample: the claim says an Authorization value that does
not start with "Bearer " is forwarded unchanged. For the header value
"key Bearer x" — which does not start with "Bearer " — the code forwards
"key x", because `str.replace` removes every occurrence of "Bearer ", not
just a leading prefix. -/
theorem proxy_credential_not_passthrough_counterexample :
    ((proxy_to_litellm (Body.parsedObj [("messages", Json.arr [Json.str "m"])])
          (some "key Bearer x") stubBackend).2.map NormalizedCall.api_key = ["key x"]) ∧
      "Bearer ".toList.isPrefixOf "key Bearer x".toList = false ∧
      "key x" ≠ "key Bearer x" := by
  refine ⟨?_, rfl, ?_⟩ <;> decide

/-- The credential of the amended claim: the header value with every
occurrence of the substring "Bearer " removed, scanned left to right
(Python `str.replace`); the empty string when the header is absent. When
"Bearer " occurs only as a leading prefix this coincides with stripping
that prefix, and a value with no occurrence passes through unchanged. -/
def credentialAmended (authHeader : Option String) : String :=
  pyReplace (authHeader.getD "") "Bearer " ""

/-- C2 amended: every backend call the handler issues carries as api_key
the Authorization header value with all occurrences of "Bearer " removed
(empty string when the header is absent), not merely a stripped leading
prefix. -/
theorem proxy_credential_replaces_all_occurrences (body : Body)
    (authHeader : Option String) (backend : NormalizedCall → BackendOutcome)
    (call : NormalizedCall)
    (hmem : call ∈ (proxy_to_litellm body authHeader backend).2) :
    call.api_key = credentialAmended authHeader := by
  cases hc : truthyOpt (pyGet (parseLeniently body) "messages") with
  | false => simp [proxy_to_litellm, hc] at hmem
  | true =>
    simp [proxy_to_litellm, hc] at hmem
    subst hmem
    rfl

/-- Witness for C2 amended at a concrete input: with header
"Bearer abc123" the issued call carries credential "abc123". -/
theorem proxy_credential_replaces_all_occurrences_witness :
    NormalizedCall.api_key
        { model := Json.str "claude-3-5-haiku-20241022"
          messages := Json.arr [Json.str "m"]
          temperature := Json.num 0.7
          max_tokens := Json.num 20
          base_url := LITELLM_BASE_URL
          api_key := "abc123" } =
      credentialAmended (some "Bearer abc123") :=
  proxy_credential_replaces_all_occurrences
    (Body.parsedObj [("messages", Json.arr [Json.str "m"])])
    (some "Bearer abc123") stubBackend _ (List.Mem.head _)

/-- C3 counterexample: the claim says the response normalizer never
raises. A backend value whose `model_dump` raises a non-AttributeError
exception (here with message "boom") makes the conversion block raise —
the `except AttributeError` clause does not catch it — and the handler
answers 500 "Proxy error: boom" instead of degrading to an error-shaped
mapping. -/
theorem normalizeResponse_raises_counterexample :
    normalizeResponse (BackendResponse.dumpRaises "boom") = NormalizeResult.raised "boom" ∧
      (proxy_to_litellm (Body.parsedObj [("messages", Json.arr [Json.str "m"])]) none
          (fun _ => BackendOutcome.value (BackendResponse.dumpRaises "boom"))).1 =
        { status := 500, body := [("detail", Json.str "Proxy error: boom")] } :=
  ⟨rfl, rfl⟩

/-- C3 amended: for every backend value whose structured conversion does
not raise a non-AttributeError exception — Python None, a structured
object whose conversion returns a mapping or None, an attribute bag, or a
shapeless value — the conversion block returns a mapping (never null,
never an exception). -/
theorem normalizeResponse_total_unless_dump_raises (r : BackendResponse)
    (h : ∀ msg, r ≠ BackendResponse.dumpRaises msg) :
    ∃ fields, normalizeResponse r = NormalizeResult.ok fields := by
  cases r with
  | null => exact ⟨_, rfl⟩
  | structured dump =>
    cases dump with
    | none => exact ⟨_, rfl⟩
    | some fields => exact ⟨fields, rfl⟩
  | dumpRaises msg => exact absurd rfl (h msg)
  | fieldBag fields => exact ⟨fields, rfl⟩
  | shapeless => exact ⟨_, rfl⟩

/-- Witness for C3 amended at a concrete input: a shapeless backend value
is converted to a mapping. -/
theorem normalizeResponse_total_unless_dump_raises_witness :
    ∃ fields, normalizeResponse BackendResponse.shapeless = NormalizeResult.ok fields :=
  normalizeResponse_total_unless_dump_raises BackendResponse.shapeless
    (fun _ h => BackendResponse.noConfusion h)

/-- C5: for a well-formed request (truthy `messages`) that omits `model`,
`temperature` and `max_tokens`, the single backend call issued carries the
defaults model "claude-3-5-haiku-20241022", temperature 0.7 and
max_tokens 20, together with the request's messages, the configured base
URL and the extracted credential. -/
theorem proxy_defaults_apply (fields : List (String × Json))
    (authHeader : Option String) (backend : NormalizedCall → BackendOutcome)
    (m : Json) (hm : pyGet fields "messages" = some m) (ht : m.truthy = true)
    (hmodel : pyGet fields "model" = none)
    (htemp : pyGet fields "temperature" = none)
    (hmax : pyGet fields "max_tokens" = none) :
    (proxy_to_litellm (Body.parsedObj fields) authHeader backend).2 =
      [{ model := Json.str "claude-3-5-haiku-20241022"
         messages := m
         temperature := Json.num 0.7
         max_tokens := Json.num 20
         base_url := LITELLM_BASE_URL
         api_key := pyReplace (authHeader.getD "") "Bearer " "" }] := by
  simp [proxy_to_litellm, parseLeniently, hm, ht, hmodel, htemp, hmax, truthyOpt]

/-- Witness for C5 at a concrete input: a body holding only a one-element
messages list and no other keys yields a call with all three defaults. -/
theorem proxy_defaults_apply_witness :
    (proxy_to_litellm
        (Body.parsedObj [("messages",
          Json.arr [Json.obj [("role", Json.str "user"), ("content", Json.str "hi")]])])
        none stubBackend).2 =
      [{ model := Json.str "claude-3-5-haiku-20241022"
         messages := Json.arr [Json.obj [("role", Json.str "user"), ("content", Json.str "hi")]]
         temperature := Json.num 0.7
         max_tokens := Json.num 20
         base_url := LITELLM_BASE_URL
         api_key := "" }] :=
  proxy_defaults_apply
    [("messages", Json.arr [Json.obj [("role", Json.str "user"), ("content", Json.str "hi")]])]
    none stubBackend
    (Json.arr [Json.obj [("role", Json.str "user"), ("content", Json.str "hi")]])
    rfl rfl rfl rfl rfl

/-- C6: when validation passes and the backend call completes but returns
None, the handler answers status 500 with a detail of the form
"Proxy error: ..." containing the null-response phrasing — the explicit
None check raises `HTTPException(500, "LiteLLM returned null response")`,
which the trailing `except Exception` re-wraps into
"Proxy error: 500: LiteLLM returned null response". -/
theorem proxy_null_response_500 (body : Body) (authHeader : Option String)
    (h : truthyOpt (pyGet (parseLeniently body) "messages") = true) :
    (proxy_to_litellm body authHeader (fun _ => BackendOutcome.value BackendResponse.null)).1 =
      { status := 500,
        body := [("detail",
          Json.str "Proxy error: 500: LiteLLM returned null response")] } := by
  simp [proxy_to_litellm, h, handleBackendOutcome]

/-- Witness for C6 at a concrete input. -/
theorem proxy_null_response_500_witness :
    (proxy_to_litellm (Body.parsedObj [("messages", Json.arr [Json.str "m"])]) none
        (fun _ => BackendOutcome.value BackendResponse.null)).1 =
      { status := 500,
        body := [("detail",
          Json.str "Proxy error: 500: LiteLLM returned null response")] } :=
  proxy_null_response_500 (Body.parsedObj [("messages", Json.arr [Json.str "m"])]) none rfl

/-- C7: when validation passes and the backend call raises a
transport-level failure (`httpx.RequestError`) with detail `d`, the
handler answers status 502 with the message
"Error connecting to LiteLLM server: " followed by the literal detail
string — the LiteLLM server is what the spec calls the backend server.
This clause is not re-wrapped: the 502 is raised inside the
`except httpx.RequestError` handler, outside the reach of the trailing
`except Exception`. -/
theorem proxy_transport_error_502 (body : Body) (authHeader : Option String) (d : String)
    (h : truthyOpt (pyGet (parseLeniently body) "messages") = true) :
    (proxy_to_litellm body authHeader (fun _ => BackendOutcome.transportError d)).1 =
      { status := 502,
        body := [("detail", Json.str ("Error connecting to LiteLLM server: " ++ d))] } := by
  simp [proxy_to_litellm, h, handleBackendOutcome]

/-- Witness for C7 at a concrete input. -/
theorem proxy_transport_error_502_witness :
    (proxy_to_litellm (Body.parsedObj [("messages", Json.arr [Json.str "m"])]) none
        (fun _ => BackendOutcome.transportError "Connection refused")).1 =
      { status := 502,
        body := [("detail",
          Json.str ("Error connecting to LiteLLM server: " ++ "Connection refused"))] } :=
  proxy_transport_error_502 (Body.parsedObj [("messages", Json.arr [Json.str "m"])]) none
    "Connection refused" rfl

/-- C8: when validation passes and the backend call succeeds with a value
that has neither a structured-to-mapping conversion nor an attribute bag,
the handler answers status 200 — not a 5xx — with the error-shaped body
binding "error" to "Invalid response format from LiteLLM" (the spec names
the LiteLLM backend generically). -/
theorem proxy_shapeless_response_200 (body : Body) (authHeader : Option String)
    (h : truthyOpt (pyGet (parseLeniently body) "messages") = true) :
    (proxy_to_litellm body authHeader stubBackend).1 =
      { status := 200,
        body := [("error", Json.str "Invalid response format from LiteLLM")] } := by
  simp [proxy_to_litellm, h, handleBackendOutcome, stubBackend, normalizeResponse]

/-- Witness for C8 at a concrete input. -/
theorem proxy_shapeless_response_200_witness :
    (proxy_to_litellm (Body.parsedObj [("messages", Json.arr [Json.str "m"])]) none
        stubBackend).1 =
      { status := 200,
        body := [("error", Json.str "Invalid response format from LiteLLM")] } :=
  proxy_shapeless_response_200 (Body.parsedObj [("messages", Json.arr [Json.str "m"])]) none rfl

end ProxyServer
